import Mathlib

/-!
Shallow embedding of the FreeRTOS WizC PIC18 port layer
(`FreeRTOS-Kernel/portable/WizC/PIC18/port.c`).

The `large` flag models the preprocessor condition `_ROMSIZE > 0x8000`
(the large-address-space tier).  Machine bytes are `Nat` values reduced
modulo 256 where the C code casts to `StackType_t` (an unsigned byte), and
16-bit quantities are reduced modulo 65536 where the C code casts to
`uint16_t`.  A write through the post-decremented stack pointer is modelled
as a pair of an address (an integer) and the byte stored there.
-/

/-- portSTACK_FSR_BYTES: 15 on devices with more than 64kB ROM, 13 otherwise. -/
def portSTACK_FSR_BYTES (large : Bool) : Nat := if large then 15 else 13

/-- portSTACK_CALLRETURN_ENTRY_SIZE: 3 bytes per call/return entry on
devices with more than 64kB ROM, 2 otherwise. -/
def portSTACK_CALLRETURN_ENTRY_SIZE (large : Bool) : Nat := if large then 3 else 2

/-- portSTACK_MINIMAL_CALLRETURN_DEPTH. -/
def portSTACK_MINIMAL_CALLRETURN_DEPTH : Nat := 10

/-- portSTACK_OTHER_BYTES. -/
def portSTACK_OTHER_BYTES : Nat := 20

/-- Initial value of the file-scope global `uint16_t usCalcMinStackSize = 0`. -/
def usCalcMinStackSize_init : Nat := 0

/-- Initial value of the nesting counter:
`register uint8_t ucCriticalNesting = 0x7F`. -/
def ucCriticalNesting_init : Nat := 0x7F

/-- Modelled from the spec: `portNO_CRITICAL_SECTION_NESTING` is defined in
the port's `portmacro.h`, which is not part of this tree.  The port source
says the per-task nesting variable "is initially set to zero", so the
not-nested constant is 0. -/
def portNO_CRITICAL_SECTION_NESTING : Nat := 0

/-- The sequence of bytes pushed by `pxPortInitialiseStack`, in push order:
one element per `*pxTopOfStack-- = ...` assignment executed, with the
compiler-scratch `while` loop contributing `ucScratch` zero bytes and the
`if large` alternatives standing for the `_ROMSIZE > 0x8000` preprocessor
blocks.  `pxCode` and `pvParameters` are cast to `uint16_t` before their
bytes are extracted, as in the source. -/
def pushList (large : Bool) (ucScratch : Nat) (pxCode pvParameters : Nat) : List Nat :=
  [((pvParameters % 65536) >>> 8) &&& 0xff,
   (pvParameters % 65536) &&& 0xff,
   0x11, 0x22, 0x33, 0x44, 0x55, 0x66, 0x77, 0x88, 0x99, 0xAA]
  ++ (if large then [0x00] else [])
  ++ [0xCC, 0xDD]
  ++ (if large then [0xEE] else [])
  ++ [0xFF]
  ++ List.replicate ucScratch 0
  ++ (if large then [0x00] else [])
  ++ [((pxCode % 65536) >>> 8) &&& 0xff,
      (pxCode % 65536) &&& 0xff,
      1,
      portNO_CRITICAL_SECTION_NESTING]

/-- `pxPortInitialiseStack`: the final top-of-stack pointer together with the
list of writes performed, each write a pair of address and stored byte.  The
source pushes through a post-decremented pointer, so the i-th pushed byte
lands at address `pxTopOfStack - i` and the returned pointer is one below
the final write. -/
def pxPortInitialiseStack (large : Bool) (ucScratch : Nat) (pxTopOfStack : Int)
    (pxCode pvParameters : Nat) : Int × List (Int × Nat) :=
  (pxTopOfStack - (pushList large ucScratch pxCode pvParameters).length,
   (pushList large ucScratch pxCode pvParameters).enum.map
     (fun q => (pxTopOfStack - (q.1 : Int), q.2 % 256)))

/-- `usPortCALCULATE_MINIMAL_STACK_SIZE`.  The embedded assembly block
(`movlw OVERHEADPAGE0-LOCOPTSIZE+MAXLOCOPTSIZE; movlb usCalcMinStackSize>>8;
movwf usCalcMinStackSize,BANKED`) stores the 8-bit scratch value into the
single byte at the global's address — on this little-endian target the low
byte of the 16-bit `usCalcMinStackSize` — preserving the high byte of the
prior contents `prev`; the C code then adds the minimal-stack constants into
the 16-bit global and returns it.  The result is both the return value and
the global's new value. -/
def usPortCALCULATE_MINIMAL_STACK_SIZE (large : Bool) (scratch : Nat) (prev : Nat) : Nat :=
  ((prev % 65536) / 256 * 256 + scratch % 256
    + (portSTACK_FSR_BYTES large
      + portSTACK_MINIMAL_CALLRETURN_DEPTH * portSTACK_CALLRETURN_ENTRY_SIZE large
      + portSTACK_OTHER_BYTES)) % 65536

/-- External calls and hardware effects performed by the port layer. -/
inductive PortAction : Type
  | setupTick : PortAction
  | restoreContext : PortAction
  | hardwareReset : PortAction
  | suspendAll : PortAction
  | resumeAll : PortAction
  | mallocCall : Nat → PortAction
  | freeCall : Nat → PortAction
  deriving DecidableEq

/-- pdTRUE.  Modelled from the spec: defined in the kernel headers, value 1. -/
def pdTRUE : Int := 1

/-- `xPortStartScheduler`: calls `portSetupTick()`, then
`portRESTORE_CONTEXT()`, and — should control come back past the restore —
executes `return pdTRUE`.  First component: the trace of actions in program
order; second component: the value returned if control returns. -/
def xPortStartScheduler : List PortAction × Int :=
  ([PortAction.setupTick, PortAction.restoreContext], pdTRUE)

/-- `vPortEndScheduler`: issues a hardware reset (`asmline reset`). -/
def vPortEndScheduler : List PortAction :=
  [PortAction.hardwareReset]

/-- `pvPortMalloc`: the trace of calls it makes and its return value, given
the underlying allocator `mallocFn` (0 standing for a NULL result). -/
def pvPortMalloc (mallocFn : Nat → Nat) (usWantedSize : Nat) : List PortAction × Nat :=
  ([PortAction.suspendAll, PortAction.mallocCall usWantedSize, PortAction.resumeAll],
   mallocFn usWantedSize)

/-- `vPortFree`: the trace of calls made for handle `pv` (0 standing for
NULL), following `if( pv ) { vTaskSuspendAll(); free( pv ); xTaskResumeAll(); }`. -/
def vPortFree (pv : Nat) : List PortAction :=
  if pv ≠ 0 then
    [PortAction.suspendAll, PortAction.freeCall pv, PortAction.resumeAll]
  else []

/-- State of the critical-nesting machinery: the one-byte live counter and
the interrupt-enable hardware flag. -/
structure CritState : Type where
  ucCriticalNesting : Nat
  interruptsEnabled : Bool
  deriving DecidableEq

/-- Modelled from the spec: `portENTER_CRITICAL` lives in the port's
`portmacro.h`, which is not part of this tree.  Per the spec, entering
increments the one-byte counter and the interrupt-enable hardware state is
toggled only at the 0-to-1 transition. -/
def portENTER_CRITICAL (s : CritState) : CritState :=
  ⟨(s.ucCriticalNesting + 1) % 256,
   if s.ucCriticalNesting = 0 then false else s.interruptsEnabled⟩

/-- Modelled from the spec: `portEXIT_CRITICAL` lives in the port's
`portmacro.h`, which is not part of this tree.  Per the spec, leaving
decrements the one-byte counter and interrupts are enabled exactly at the
1-to-0 transition. -/
def portEXIT_CRITICAL (s : CritState) : CritState :=
  ⟨(s.ucCriticalNesting + 255) % 256,
   if (s.ucCriticalNesting + 255) % 256 = 0 then true else s.interruptsEnabled⟩

/-- A critical-section operation: enter or leave. -/
inductive CritOp : Type
  | enter : CritOp
  | leave : CritOp
  deriving DecidableEq

/-- Apply one critical-section operation. -/
def applyCritOp : CritOp → CritState → CritState
  | CritOp.enter, s => portENTER_CRITICAL s
  | CritOp.leave, s => portEXIT_CRITICAL s

/-- Run a sequence of critical-section operations from a state. -/
def runCrit : CritState → List CritOp → CritState
  | s, [] => s
  | s, op :: ops => runCrit (applyCritOp op s) ops

/-- Number of enters in a sequence. -/
def countEnter : List CritOp → Nat
  | [] => 0
  | CritOp.enter :: ops => countEnter ops + 1
  | CritOp.leave :: ops => countEnter ops

/-- Number of leaves in a sequence. -/
def countLeave : List CritOp → Nat
  | [] => 0
  | CritOp.enter :: ops => countLeave ops
  | CritOp.leave :: ops => countLeave ops + 1

/-- The small-tier push sequence, appends flattened. -/
theorem pushList_small (S c p : Nat) :
    pushList false S c p =
      [((p % 65536) >>> 8) &&& 0xff, (p % 65536) &&& 0xff,
       0x11, 0x22, 0x33, 0x44, 0x55, 0x66, 0x77, 0x88, 0x99, 0xAA, 0xCC, 0xDD, 0xFF]
      ++ (List.replicate S 0
      ++ [((c % 65536) >>> 8) &&& 0xff, (c % 65536) &&& 0xff, 1,
          portNO_CRITICAL_SECTION_NESTING]) := by
  simp [pushList]

/-- The large-tier push sequence, appends flattened: the extra table-pointer
high byte (zero) sits between the TABLAT and TBLPTRH placeholders, and the
extra call/return high byte (zero) sits after the scratch padding. -/
theorem pushList_large (S c p : Nat) :
    pushList true S c p =
      [((p % 65536) >>> 8) &&& 0xff, (p % 65536) &&& 0xff,
       0x11, 0x22, 0x33, 0x44, 0x55, 0x66, 0x77, 0x88, 0x99, 0xAA,
       0x00, 0xCC, 0xDD, 0xEE, 0xFF]
      ++ (List.replicate S 0
      ++ [0x00, ((c % 65536) >>> 8) &&& 0xff, (c % 65536) &&& 0xff, 1,
          portNO_CRITICAL_SECTION_NESTING]) := by
  simp [pushList]

/-- Length of the push sequence. -/
theorem pushList_length (large : Bool) (S c p : Nat) :
    (pushList large S c p).length
      = S + (portSTACK_FSR_BYTES large + portSTACK_CALLRETURN_ENTRY_SIZE large + 4) := by
  cases large
  · rw [pushList_small]
    simp [portSTACK_FSR_BYTES, portSTACK_CALLRETURN_ENTRY_SIZE]
  · rw [pushList_large]
    simp [portSTACK_FSR_BYTES, portSTACK_CALLRETURN_ENTRY_SIZE]

/-- The i-th write of the stack initialiser stores the i-th pushed byte
(reduced to a machine byte) at address `top - i`. -/
theorem pxPortInitialiseStack_writes (large : Bool) (S : Nat) (top : Int)
    (c p i : Nat) :
    (pxPortInitialiseStack large S top c p).2[i]? =
      ((pushList large S c p)[i]?).map (fun b => (top - (i : Int), b % 256)) := by
  show ((pushList large S c p).enum.map
      (fun q => (top - (q.1 : Int), q.2 % 256)))[i]? = _
  rw [List.getElem?_map, List.getElem?_enum]
  cases (pushList large S c p)[i]? <;> simp

/-- Indexing the suffix of an append-replicate-append chain. -/
theorem getElem?_append_replicate (A B : List Nat) (S j : Nat) :
    (A ++ (List.replicate S 0 ++ B))[A.length + S + j]? = B[j]? := by
  rw [List.getElem?_append_right (by omega : A.length ≤ A.length + S + j)]
  have h1 : A.length + S + j - A.length = S + j := by omega
  rw [h1]
  rw [List.getElem?_append_right
    (by simp : (List.replicate S (0 : Nat)).length ≤ S + j)]
  have h2 : S + j - (List.replicate S (0 : Nat)).length = j := by simp
  rw [h2]

/-- C2: the pointer returned by `pxPortInitialiseStack` is exactly one slot
below the last-written (outermost, lowest-address) byte, and the number of
bytes written is the scratch size plus the tier's register-block size plus
the tier's call/return-record size plus 4 (two parameter bytes, the record
count and the nesting byte): `S + 13 + 2 + 4` in the small tier and
`S + 15 + 3 + 4` in the large tier. -/
theorem pxPortInitialiseStack_return_size (large : Bool) (S : Nat) (top : Int) (c p : Nat) :
    (pxPortInitialiseStack large S top c p).2.length
      = S + ((if large then 15 else 13) + (if large then 3 else 2) + 4)
    ∧ (pxPortInitialiseStack large S top c p).1
      = top - ((pxPortInitialiseStack large S top c p).2.length : Int)
    ∧ ∃ w : Int × Nat,
        (pxPortInitialiseStack large S top c p).2.getLast? = some w
        ∧ (∀ w' ∈ (pxPortInitialiseStack large S top c p).2, w.1 ≤ w'.1)
        ∧ (pxPortInitialiseStack large S top c p).1 = w.1 - 1 := by
  have hlen2 : (pxPortInitialiseStack large S top c p).2.length
      = (pushList large S c p).length := by
    simp [pxPortInitialiseStack]
  have hpos : 0 < (pushList large S c p).length := by
    rw [pushList_length]; omega
  refine ⟨?_, ?_, ?_⟩
  · rw [hlen2, pushList_length]
    cases large <;> simp [portSTACK_FSR_BYTES, portSTACK_CALLRETURN_ENTRY_SIZE]
  · rw [hlen2]
    simp [pxPortInitialiseStack]
  · have hlt : (pushList large S c p).length - 1 < (pushList large S c p).length := by
      omega
    have hb := List.getElem?_eq_getElem hlt
    refine ⟨(top - (((pushList large S c p).length - 1 : Nat) : Int),
        (pushList large S c p).get ⟨(pushList large S c p).length - 1, hlt⟩ % 256),
      ?_, ?_, ?_⟩
    · rw [List.getLast?_eq_getElem?, hlen2, pxPortInitialiseStack_writes, hb]
      simp
    · intro w' hw'
      obtain ⟨i, hi⟩ := List.mem_iff_get?.mp hw'
      rw [List.get?_eq_getElem?, pxPortInitialiseStack_writes] at hi
      obtain ⟨b', hb', hw⟩ := Option.map_eq_some'.mp hi
      have hilt : i < (pushList large S c p).length := by
        have := List.getElem?_eq_some.mp hb'
        exact this.1
      rw [← hw]
      dsimp only
      omega
    · show (pxPortInitialiseStack large S top c p).1 = _
      simp only [pxPortInitialiseStack]
      omega

/-- C3 counterexample: the claim places the extra table-pointer high byte and
the extra call/return high byte (both zero) after the register-save-block
placeholder bytes and before the scratch padding.  At scratch size 1 with
entry address 0xABCD and parameter 0x1234 the byte sequence actually pushed
in the large tier differs from the sequence the claim describes: the code
pushes the table-pointer extra byte inside the register block (between the
TABLAT and TBLPTRH placeholders) and the call/return extra byte after the
scratch padding. -/
theorem pushList_extra_byte_position_cex :
    pushList true 1 0xABCD 0x1234 ≠
      [0x12, 0x34, 0x11, 0x22, 0x33, 0x44, 0x55, 0x66, 0x77, 0x88, 0x99, 0xAA,
       0xCC, 0xDD, 0xEE, 0xFF, 0x00, 0x00]
      ++ (List.replicate 1 0
      ++ [0xAB, 0xCD, 1, portNO_CRITICAL_SECTION_NESTING]) := by
  decide

/-- C3 amended: in the large tier only, `pxPortInitialiseStack` pushes the
table-pointer's extra high byte, value zero, between the TABLAT and TBLPTRH
register placeholders, and pushes the call/return record's extra high byte,
value zero, immediately after the scratch padding and before the entry
address's high byte; the small tier pushes neither byte. -/
theorem pushList_extra_byte_position (S c p : Nat) :
    pushList true S c p =
      [((p % 65536) >>> 8) &&& 0xff, (p % 65536) &&& 0xff,
       0x11, 0x22, 0x33, 0x44, 0x55, 0x66, 0x77, 0x88, 0x99, 0xAA,
       0x00, 0xCC, 0xDD, 0xEE, 0xFF]
      ++ (List.replicate S 0
      ++ [0x00, ((c % 65536) >>> 8) &&& 0xff, (c % 65536) &&& 0xff, 1,
          portNO_CRITICAL_SECTION_NESTING])
    ∧ pushList false S c p =
      [((p % 65536) >>> 8) &&& 0xff, (p % 65536) &&& 0xff,
       0x11, 0x22, 0x33, 0x44, 0x55, 0x66, 0x77, 0x88, 0x99, 0xAA, 0xCC, 0xDD, 0xFF]
      ++ (List.replicate S 0
      ++ [((c % 65536) >>> 8) &&& 0xff, (c % 65536) &&& 0xff, 1,
          portNO_CRITICAL_SECTION_NESTING]) :=
  ⟨pushList_large S c p, pushList_small S c p⟩

/-- C4 counterexample: the size formula does not hold for every call.  The
`movwf` store preserves the high byte of the global's prior contents, so a
second call whose predecessor pushed the global to 256 or more returns 256
extra.  Concretely, in the large tier with scratch 191 the first call (from
the initial value 0) returns 191 + 65 = 256, and the second call returns
512, not the claimed 191 + 15 + 30 + 20 = 256. -/
theorem usPortCALCULATE_MINIMAL_STACK_SIZE_formula_cex :
    usPortCALCULATE_MINIMAL_STACK_SIZE true 191
        (usPortCALCULATE_MINIMAL_STACK_SIZE true 191 usCalcMinStackSize_init)
      ≠ 191 + portSTACK_FSR_BYTES true
          + portSTACK_MINIMAL_CALLRETURN_DEPTH * portSTACK_CALLRETURN_ENTRY_SIZE true
          + portSTACK_OTHER_BYTES := by
  decide

/-- C4 amended: provided the global `usCalcMinStackSize`'s prior contents
are below 256 — in particular on the first call, from its initial value 0 —
`usPortCALCULATE_MINIMAL_STACK_SIZE` returns the scratch size plus the
tier's register-block size plus 10 times the tier's call/return record size
plus 20; in particular 53 in the small tier and 65 in the large tier at
scratch 0.  (A call that finds a preserved nonzero high byte in the global
returns 256 times that byte more.) -/
theorem usPortCALCULATE_MINIMAL_STACK_SIZE_formula :
    (∀ (large : Bool) (S g : Nat), S < 256 → g < 256 →
        usPortCALCULATE_MINIMAL_STACK_SIZE large S g
          = S + portSTACK_FSR_BYTES large
              + portSTACK_MINIMAL_CALLRETURN_DEPTH * portSTACK_CALLRETURN_ENTRY_SIZE large
              + portSTACK_OTHER_BYTES)
    ∧ usPortCALCULATE_MINIMAL_STACK_SIZE false 0 usCalcMinStackSize_init = 53
    ∧ usPortCALCULATE_MINIMAL_STACK_SIZE true 0 usCalcMinStackSize_init = 65 := by
  refine ⟨?_, by decide, by decide⟩
  intro large S g hS hg
  cases large <;>
    simp [usPortCALCULATE_MINIMAL_STACK_SIZE, portSTACK_FSR_BYTES,
      portSTACK_CALLRETURN_ENTRY_SIZE, portSTACK_MINIMAL_CALLRETURN_DEPTH,
      portSTACK_OTHER_BYTES] <;>
    omega

/-- Witness for C4: the formula at the large tier, scratch 7, prior global 0. -/
theorem usPortCALCULATE_MINIMAL_STACK_SIZE_formula_witness :
    (7 : Nat) < 256 ∧ (0 : Nat) < 256
    ∧ usPortCALCULATE_MINIMAL_STACK_SIZE true 7 0
        = 7 + portSTACK_FSR_BYTES true
            + portSTACK_MINIMAL_CALLRETURN_DEPTH * portSTACK_CALLRETURN_ENTRY_SIZE true
            + portSTACK_OTHER_BYTES :=
  ⟨by decide, by decide,
   usPortCALCULATE_MINIMAL_STACK_SIZE_formula.1 true 7 0 (by decide) (by decide)⟩

/-- C5 counterexample: with the high byte of the global's prior contents
preserved by the `movwf` store, the 16-bit size accumulation can wrap and
undershoot the frame.  Prior contents 65280 (reachable in the large tier
with scratch 191: each call adds 256, so 255 successive calls starting from
0 leave 65280) make the next call return (65280 + 191 + 65) mod 65536 = 0,
which is smaller than the 191 + 22 = 213 bytes the initialiser writes. -/
theorem minimal_stack_covers_initial_frame_cex :
    ¬ ((pxPortInitialiseStack true 191 1000 0xABCD 0x1234).2.length
        ≤ usPortCALCULATE_MINIMAL_STACK_SIZE true 191 65280) := by
  have hlen : (pxPortInitialiseStack true 191 1000 0xABCD 0x1234).2.length = 213 := by
    have h2 : (pxPortInitialiseStack true 191 1000 0xABCD 0x1234).2.length
        = (pushList true 191 0xABCD 0x1234).length := by
      simp [pxPortInitialiseStack]
    rw [h2, pushList_length]
    decide
  rw [hlen]
  decide

/-- C5 amended: for the same tier and the same observed scratch byte,
provided the global's prior contents are below 65216 (so the 16-bit size
accumulation cannot wrap; in particular from the startup value 0 or after
any single previous call), the calculated minimal stack size is at least the
number of bytes the stack initialiser writes, so a stack reserved at the
calculated minimum holds the initial frame. -/
theorem minimal_stack_covers_initial_frame (large : Bool) (S : Nat) (hS : S < 256)
    (top : Int) (c p g : Nat) (hg : g < 65216) :
    (pxPortInitialiseStack large S top c p).2.length
      ≤ usPortCALCULATE_MINIMAL_STACK_SIZE large S g := by
  have hlen2 : (pxPortInitialiseStack large S top c p).2.length
      = (pushList large S c p).length := by
    simp [pxPortInitialiseStack]
  rw [hlen2, pushList_length]
  cases large <;>
    simp [usPortCALCULATE_MINIMAL_STACK_SIZE, portSTACK_FSR_BYTES,
      portSTACK_CALLRETURN_ENTRY_SIZE, portSTACK_MINIMAL_CALLRETURN_DEPTH,
      portSTACK_OTHER_BYTES] <;>
    omega

/-- Witness for C5: small tier, scratch 3, prior global 0. -/
theorem minimal_stack_covers_initial_frame_witness :
    (3 : Nat) < 256 ∧ (0 : Nat) < 65216
    ∧ (pxPortInitialiseStack false 3 1000 0xABCD 0x1234).2.length
        ≤ usPortCALCULATE_MINIMAL_STACK_SIZE false 3 0 :=
  ⟨by decide, by decide,
   minimal_stack_covers_initial_frame false 3 (by decide) 1000 0xABCD 0x1234 0 (by decide)⟩

/-- C6 counterexample: calling `usPortCALCULATE_MINIMAL_STACK_SIZE` is not
free of side effects — it overwrites the global `usCalcMinStackSize`.
Already the first call (small tier, scratch 0) moves the global from its
initial value 0 to 53, so program state other than the return value changes. -/
theorem usPortCALCULATE_MINIMAL_STACK_SIZE_side_effect_cex :
    ¬ (usPortCALCULATE_MINIMAL_STACK_SIZE false 0 usCalcMinStackSize_init
        = usCalcMinStackSize_init) := by
  decide

/-- C6 amended: each call's only state change is to the dedicated global
`usCalcMinStackSize`, which is overwritten with the returned value; the
result depends on the prior contents only through their preserved high
byte, and repeated calls with the same scratch value return the same result
whenever the accumulated size stays below 256 (in particular for the
default results 53 and 65); a call whose result reaches 256 shifts later
results. -/
theorem usPortCALCULATE_MINIMAL_STACK_SIZE_repeatable (large : Bool) (S g gg : Nat) :
    ((g % 65536) / 256 = (gg % 65536) / 256 →
        usPortCALCULATE_MINIMAL_STACK_SIZE large S g
          = usPortCALCULATE_MINIMAL_STACK_SIZE large S gg)
    ∧ (g % 65536 < 256 →
        S % 256 + (portSTACK_FSR_BYTES large
            + portSTACK_MINIMAL_CALLRETURN_DEPTH * portSTACK_CALLRETURN_ENTRY_SIZE large
            + portSTACK_OTHER_BYTES) < 256 →
        usPortCALCULATE_MINIMAL_STACK_SIZE large S
            (usPortCALCULATE_MINIMAL_STACK_SIZE large S g)
          = usPortCALCULATE_MINIMAL_STACK_SIZE large S g) := by
  constructor
  · intro h
    simp only [usPortCALCULATE_MINIMAL_STACK_SIZE, h]
  · intro hg hc
    cases large <;>
      simp only [usPortCALCULATE_MINIMAL_STACK_SIZE, portSTACK_FSR_BYTES,
        portSTACK_CALLRETURN_ENTRY_SIZE, portSTACK_MINIMAL_CALLRETURN_DEPTH,
        portSTACK_OTHER_BYTES] at hc ⊢ <;>
      omega

/-- Witness for C6: small tier, scratch 0, prior globals 0 and 100 (same
preserved high byte), and a repeated call from the initial value. -/
theorem usPortCALCULATE_MINIMAL_STACK_SIZE_repeatable_witness :
    ((0 : Nat) % 65536) / 256 = ((100 : Nat) % 65536) / 256
    ∧ usPortCALCULATE_MINIMAL_STACK_SIZE false 0 0
        = usPortCALCULATE_MINIMAL_STACK_SIZE false 0 100
    ∧ (0 : Nat) % 65536 < 256
    ∧ usPortCALCULATE_MINIMAL_STACK_SIZE false 0
        (usPortCALCULATE_MINIMAL_STACK_SIZE false 0 0)
      = usPortCALCULATE_MINIMAL_STACK_SIZE false 0 0 :=
  ⟨by decide,
   (usPortCALCULATE_MINIMAL_STACK_SIZE_repeatable false 0 0 100).1 (by decide),
   by decide,
   (usPortCALCULATE_MINIMAL_STACK_SIZE_repeatable false 0 0 100).2 (by decide) (by decide)⟩

/-- Indexing the push sequence past the scratch padding: offset
`(if large then 17 else 15) + S + j` reads the j-th byte of the
call/return-record tail. -/
theorem pushList_getElem_tail (large : Bool) (S c p j : Nat) :
    (pushList large S c p)[(if large then 17 else 15) + S + j]?
      = ((if large then
            [0x00, ((c % 65536) >>> 8) &&& 0xff, (c % 65536) &&& 0xff, 1,
             portNO_CRITICAL_SECTION_NESTING]
          else
            [((c % 65536) >>> 8) &&& 0xff, (c % 65536) &&& 0xff, 1,
             portNO_CRITICAL_SECTION_NESTING]) : List Nat)[j]? := by
  cases large
  · rw [pushList_small]
    have h := getElem?_append_replicate
      [((p % 65536) >>> 8) &&& 0xff, (p % 65536) &&& 0xff,
       0x11, 0x22, 0x33, 0x44, 0x55, 0x66, 0x77, 0x88, 0x99, 0xAA, 0xCC, 0xDD, 0xFF]
      [((c % 65536) >>> 8) &&& 0xff, (c % 65536) &&& 0xff, 1,
       portNO_CRITICAL_SECTION_NESTING] S j
    simpa using h
  · rw [pushList_large]
    have h := getElem?_append_replicate
      [((p % 65536) >>> 8) &&& 0xff, (p % 65536) &&& 0xff,
       0x11, 0x22, 0x33, 0x44, 0x55, 0x66, 0x77, 0x88, 0x99, 0xAA,
       0x00, 0xCC, 0xDD, 0xEE, 0xFF]
      [0x00, ((c % 65536) >>> 8) &&& 0xff, (c % 65536) &&& 0xff, 1,
       portNO_CRITICAL_SECTION_NESTING] S j
    simpa using h

/-- Addresses strictly decrease in push order: a later write lands strictly
below an earlier one. -/
theorem pxPortInitialiseStack_addr_strictAnti (large : Bool) (S : Nat) (top : Int)
    (c p : Nat) :
    ∀ (i j : Nat) (wi wj : Int × Nat),
      (pxPortInitialiseStack large S top c p).2[i]? = some wi →
      (pxPortInitialiseStack large S top c p).2[j]? = some wj → i < j → wj.1 < wi.1 := by
  intro i j wi wj hi hj hij
  rw [pxPortInitialiseStack_writes] at hi hj
  obtain ⟨bi, hbi, hwi⟩ := Option.map_eq_some'.mp hi
  obtain ⟨bj, hbj, hwj⟩ := Option.map_eq_some'.mp hj
  subst hwi
  subst hwj
  dsimp only
  omega

/-- C1: for every initial top-of-stack pointer, 16-bit entry address and
16-bit parameter, `pxPortInitialiseStack` writes the parameter's high byte
then low byte into the first-pushed slots — the two highest-address slots,
since write addresses strictly decrease in push order — and the entry
address's high byte then low byte into the call/return-record slots (push
offsets `15+S` small tier / `18+S` large tier), followed immediately by a
live-record count byte equal to 1, in both address-space tiers. -/
theorem pxPortInitialiseStack_entry_param (large : Bool) (S : Nat) (top : Int)
    (c p : Nat) (hc : c < 65536) (hp : p < 65536) :
    (pxPortInitialiseStack large S top c p).2[0]?
        = some (top, (p >>> 8) &&& 0xff)
    ∧ (pxPortInitialiseStack large S top c p).2[1]?
        = some (top - 1, p &&& 0xff)
    ∧ (∀ (i j : Nat) (wi wj : Int × Nat),
        (pxPortInitialiseStack large S top c p).2[i]? = some wi →
        (pxPortInitialiseStack large S top c p).2[j]? = some wj → i < j → wj.1 < wi.1)
    ∧ (pxPortInitialiseStack large S top c p).2[(if large then 18 else 15) + S]?
        = some (top - (((if large then 18 else 15) + S : Nat) : Int), (c >>> 8) &&& 0xff)
    ∧ (pxPortInitialiseStack large S top c p).2[(if large then 18 else 15) + S + 1]?
        = some (top - (((if large then 18 else 15) + S + 1 : Nat) : Int), c &&& 0xff)
    ∧ (pxPortInitialiseStack large S top c p).2[(if large then 18 else 15) + S + 2]?
        = some (top - (((if large then 18 else 15) + S + 2 : Nat) : Int), 1) := by
  have hmodp : p % 65536 = p := Nat.mod_eq_of_lt hp
  have hmodc : c % 65536 = c := Nat.mod_eq_of_lt hc
  have hband : ∀ x : Nat, (x &&& 0xff) % 256 = x &&& 0xff := fun x =>
    Nat.mod_eq_of_lt (Nat.lt_succ_of_le Nat.and_le_right)
  cases large
  · have h0 := pushList_getElem_tail false S c p 0
    have h1 := pushList_getElem_tail false S c p 1
    have h2 := pushList_getElem_tail false S c p 2
    simp [hmodc] at h0 h1 h2
    refine ⟨?_, ?_, pxPortInitialiseStack_addr_strictAnti false S top c p, ?_, ?_, ?_⟩
    · rw [pxPortInitialiseStack_writes, pushList_small]
      simp [hmodp, hband]
    · rw [pxPortInitialiseStack_writes, pushList_small]
      simp [hmodp, hband]
    · rw [pxPortInitialiseStack_writes]
      simp [h0, hband]
    · rw [pxPortInitialiseStack_writes]
      simp [h1, hband]
    · rw [pxPortInitialiseStack_writes]
      simp [h2]
  · have h0 := pushList_getElem_tail true S c p 1
    have h1 := pushList_getElem_tail true S c p 2
    have h2 := pushList_getElem_tail true S c p 3
    simp [hmodc] at h0 h1 h2
    rw [show 17 + S + 1 = 18 + S from by omega] at h0
    rw [show 17 + S + 2 = 18 + S + 1 from by omega] at h1
    rw [show 17 + S + 3 = 18 + S + 2 from by omega] at h2
    refine ⟨?_, ?_, pxPortInitialiseStack_addr_strictAnti true S top c p, ?_, ?_, ?_⟩
    · rw [pxPortInitialiseStack_writes, pushList_large]
      simp [hmodp, hband]
    · rw [pxPortInitialiseStack_writes, pushList_large]
      simp [hmodp, hband]
    · rw [pxPortInitialiseStack_writes]
      simp [h0, hband]
    · rw [pxPortInitialiseStack_writes]
      simp [h1, hband]
    · rw [pxPortInitialiseStack_writes]
      simp [h2]

/-- Running a prefix-bounded sequence of critical-section operations from a
counter in the safe band [127, 254] with interrupts masked: the counter
tracks enters minus leaves exactly (no byte wrap-around) and interrupts
stay masked. -/
theorem runCrit_steady (ops : List CritOp) : ∀ c : Nat,
    (∀ k, k < ops.length + 1 →
        127 + countLeave (List.take k ops) ≤ c + countEnter (List.take k ops)
        ∧ c + countEnter (List.take k ops) ≤ 254 + countLeave (List.take k ops)) →
    runCrit ⟨c, false⟩ ops = ⟨c + countEnter ops - countLeave ops, false⟩ := by
  induction ops with
  | nil =>
    intro c h
    simp [runCrit, countEnter, countLeave]
  | cons op rest ih =>
    intro c h
    have h0 := h 0 (by omega)
    simp [countEnter, countLeave] at h0
    have h1 := h 1 (by simp only [List.length_cons]; omega)
    cases op with
    | enter =>
      simp [countEnter, countLeave] at h1
      have hcm : (c + 1) % 256 = c + 1 := Nat.mod_eq_of_lt (by omega)
      have happ : applyCritOp CritOp.enter ⟨c, false⟩ = ⟨c + 1, false⟩ := by
        simp [applyCritOp, portENTER_CRITICAL, hcm]
      have hrun : runCrit ⟨c, false⟩ (CritOp.enter :: rest)
          = runCrit ⟨c + 1, false⟩ rest := by
        simp only [runCrit]
        rw [happ]
      have hpre : ∀ k, k < rest.length + 1 →
          127 + countLeave (List.take k rest) ≤ (c + 1) + countEnter (List.take k rest)
          ∧ (c + 1) + countEnter (List.take k rest)
              ≤ 254 + countLeave (List.take k rest) := by
        intro k hk
        have := h (k + 1) (by simp only [List.length_cons]; omega)
        simp only [List.take_succ_cons, countEnter, countLeave] at this
        omega
      rw [hrun, ih (c + 1) hpre]
      simp only [countEnter, countLeave, CritState.mk.injEq]
      refine ⟨by omega, trivial⟩
    | leave =>
      simp [countEnter, countLeave] at h1
      have hm : (c + 255) % 256 = c - 1 := by omega
      have hne : ¬ (c - 1 = 0) := by omega
      have happ : applyCritOp CritOp.leave ⟨c, false⟩ = ⟨c - 1, false⟩ := by
        simp [applyCritOp, portEXIT_CRITICAL, hm, hne]
      have hrun : runCrit ⟨c, false⟩ (CritOp.leave :: rest)
          = runCrit ⟨c - 1, false⟩ rest := by
        simp only [runCrit]
        rw [happ]
      have hpre : ∀ k, k < rest.length + 1 →
          127 + countLeave (List.take k rest) ≤ (c - 1) + countEnter (List.take k rest)
          ∧ (c - 1) + countEnter (List.take k rest)
              ≤ 254 + countLeave (List.take k rest) := by
        intro k hk
        have := h (k + 1) (by simp only [List.length_cons]; omega)
        simp only [List.take_succ_cons, countEnter, countLeave] at this
        omega
      rw [hrun, ih (c - 1) hpre]
      simp only [countEnter, countLeave, CritState.mk.injEq]
      refine ⟨by omega, trivial⟩

/-- C7: before the scheduler starts the live counter `ucCriticalNesting`
holds the startup sentinel 0x7F, strictly greater than the not-nested value
that `pxPortInitialiseStack` pushes as the per-task nesting seed (the last
byte of every frame); starting from the sentinel with interrupts masked, any
matched, depth-bounded sequence of enter/leave operations keeps the counter
at or above the sentinel at every prefix, never enables interrupts, and
returns the counter to the sentinel. -/
theorem ucCriticalNesting_sentinel (ops : List CritOp)
    (hbal : countLeave ops = countEnter ops)
    (hdepth : ∀ k, k < ops.length + 1 →
        countLeave (List.take k ops) ≤ countEnter (List.take k ops)
        ∧ countEnter (List.take k ops) ≤ countLeave (List.take k ops) + 127) :
    ucCriticalNesting_init = 0x7F
    ∧ portNO_CRITICAL_SECTION_NESTING < ucCriticalNesting_init
    ∧ (∀ (large : Bool) (S c p : Nat),
        (pushList large S c p).getLast? = some portNO_CRITICAL_SECTION_NESTING)
    ∧ (∀ k, k < ops.length + 1 →
        ucCriticalNesting_init
            ≤ (runCrit ⟨ucCriticalNesting_init, false⟩ (List.take k ops)).ucCriticalNesting
        ∧ (runCrit ⟨ucCriticalNesting_init, false⟩ (List.take k ops)).interruptsEnabled
            = false)
    ∧ runCrit ⟨ucCriticalNesting_init, false⟩ ops = ⟨ucCriticalNesting_init, false⟩ := by
  have hinit : ucCriticalNesting_init = (127 : Nat) := rfl
  refine ⟨rfl, by decide, ?_, ?_, ?_⟩
  · intro large S c p
    cases large
    · rw [pushList_small]
      rw [List.getLast?_append_of_ne_nil _ (List.ne_nil_of_length_pos (by
        simp only [List.length_append, List.length_replicate, List.length_cons,
          List.length_nil]
        omega))]
      rw [List.getLast?_append_of_ne_nil _ (by simp)]
      rfl
    · rw [pushList_large]
      rw [List.getLast?_append_of_ne_nil _ (List.ne_nil_of_length_pos (by
        simp only [List.length_append, List.length_replicate, List.length_cons,
          List.length_nil]
        omega))]
      rw [List.getLast?_append_of_ne_nil _ (by simp)]
      rfl
  · intro k hk
    have hpre : ∀ j, j < (List.take k ops).length + 1 →
        127 + countLeave (List.take j (List.take k ops))
            ≤ 127 + countEnter (List.take j (List.take k ops))
        ∧ 127 + countEnter (List.take j (List.take k ops))
            ≤ 254 + countLeave (List.take j (List.take k ops)) := by
      intro j hj
      rw [List.take_take]
      have hmin : min j k < ops.length + 1 := by omega
      have := hdepth (min j k) hmin
      omega
    have hrun := runCrit_steady (List.take k ops) 127 hpre
    rw [hinit, hrun]
    have hk' := hdepth k hk
    exact ⟨by dsimp only; omega, rfl⟩
  · have hpre : ∀ j, j < ops.length + 1 →
        127 + countLeave (List.take j ops) ≤ 127 + countEnter (List.take j ops)
        ∧ 127 + countEnter (List.take j ops) ≤ 254 + countLeave (List.take j ops) := by
      intro j hj
      have := hdepth j hj
      omega
    have hrun := runCrit_steady ops 127 hpre
    rw [hinit, hrun, ← hbal]
    simp

/-- Witness for C7: two nested enter/leave pairs from the sentinel. -/
theorem ucCriticalNesting_sentinel_witness :
    countLeave [CritOp.enter, CritOp.enter, CritOp.leave, CritOp.leave]
        = countEnter [CritOp.enter, CritOp.enter, CritOp.leave, CritOp.leave]
    ∧ runCrit ⟨ucCriticalNesting_init, false⟩
        [CritOp.enter, CritOp.enter, CritOp.leave, CritOp.leave]
        = ⟨ucCriticalNesting_init, false⟩ :=
  ⟨by decide,
   (ucCriticalNesting_sentinel [CritOp.enter, CritOp.enter, CritOp.leave, CritOp.leave]
      (by decide) (by decide)).2.2.2.2⟩

/-- C8 counterexample: `xPortStartScheduler` performs no hardware reset — its
trace is tick setup followed by the context restore — and if control returns
past the restore it executes `return pdTRUE`, returning a value to its
caller rather than resetting. -/
theorem xPortStartScheduler_no_reset_cex :
    PortAction.hardwareReset ∉ xPortStartScheduler.1
    ∧ xPortStartScheduler.2 = pdTRUE := by
  decide

/-- C8 amended: `xPortStartScheduler` arms the tick source and then restores
the first task's context; if control ever returns past the restore it
returns `pdTRUE` to its caller, without any reset; the full hardware reset
is `vPortEndScheduler`'s response to a scheduler-termination request. -/
theorem xPortStartScheduler_trace :
    xPortStartScheduler
      = ([PortAction.setupTick, PortAction.restoreContext], pdTRUE)
    ∧ PortAction.hardwareReset ∉ xPortStartScheduler.1
    ∧ vPortEndScheduler = [PortAction.hardwareReset] := by
  refine ⟨rfl, by decide, rfl⟩

/-- C9: `pvPortMalloc` suspends the scheduler, calls the allocator exactly
once with the requested size, resumes the scheduler, and returns the
allocator's result unchanged — including a null (0) result on exhaustion,
with no retry and the suspend/resume pair still balanced. -/
theorem pvPortMalloc_gate (mallocFn : Nat → Nat) (sz : Nat) :
    (pvPortMalloc mallocFn sz).2 = mallocFn sz
    ∧ (pvPortMalloc mallocFn sz).1
        = [PortAction.suspendAll, PortAction.mallocCall sz, PortAction.resumeAll]
    ∧ (pvPortMalloc mallocFn sz).1.count PortAction.suspendAll = 1
    ∧ (pvPortMalloc mallocFn sz).1.count PortAction.resumeAll = 1
    ∧ (pvPortMalloc mallocFn sz).1.count (PortAction.mallocCall sz) = 1 := by
  refine ⟨rfl, rfl, ?_, ?_, ?_⟩ <;>
    simp [pvPortMalloc, List.count_cons, List.count_nil]

/-- C10: `vPortFree` on the null handle performs zero calls — no allocator
call, no suspend, no resume — and returns normally; on every non-null handle
it passes exactly that handle to the allocator's free operation, bracketed
by one suspend/resume pair. -/
theorem vPortFree_gate :
    vPortFree 0 = []
    ∧ ∀ pv : Nat, pv ≠ 0 →
        vPortFree pv
          = [PortAction.suspendAll, PortAction.freeCall pv, PortAction.resumeAll] := by
  constructor
  · rfl
  · intro pv h
    simp [vPortFree, h]

/-- Witness for C10 at handle 5. -/
theorem vPortFree_gate_witness :
    (5 : Nat) ≠ 0
    ∧ vPortFree 5
        = [PortAction.suspendAll, PortAction.freeCall 5, PortAction.resumeAll] :=
  ⟨by decide, vPortFree_gate.2 5 (by decide)⟩

/-- Witness for C1: large tier, scratch 2, entry 0xABCD, parameter 0x1234. -/
theorem pxPortInitialiseStack_entry_param_witness :
    (0xABCD : Nat) < 65536 ∧ (0x1234 : Nat) < 65536
    ∧ (pxPortInitialiseStack true 2 1000 0xABCD 0x1234).2[0]?
        = some ((1000 : Int), (0x1234 >>> 8) &&& 0xff)
    ∧ (pxPortInitialiseStack true 2 1000 0xABCD 0x1234).2[(if true then 18 else 15) + 2]?
        = some (1000 - (((if true then 18 else 15) + 2 : Nat) : Int), (0xABCD >>> 8) &&& 0xff) :=
  ⟨by decide, by decide,
   (pxPortInitialiseStack_entry_param true 2 1000 0xABCD 0x1234
      (by decide) (by decide)).1,
   (pxPortInitialiseStack_entry_param true 2 1000 0xABCD 0x1234
      (by decide) (by decide)).2.2.2.1⟩

/-- Witness for C2: small tier, scratch 3 — the frame occupies 3 + 19 bytes. -/
theorem pxPortInitialiseStack_return_size_witness :
    (pxPortInitialiseStack false 3 1000 0xABCD 0x1234).2.length
      = 3 + ((if false then 15 else 13) + (if false then 3 else 2) + 4) :=
  (pxPortInitialiseStack_return_size false 3 1000 0xABCD 0x1234).1
